import Mathlib

/-!
Shallow embedding of `src/pyrastr/pyrastr.py`, the Python adapter layer over
the external RastrWin3 COM engine.  The wrapper's own logic (argument
validation, runtime-type dispatch, error wrapping, return-value conventions)
is translated directly from the source; the external engine itself is opaque,
so engine calls are represented either by an explicit engine-function
parameter, or by the description of the call the wrapper performs (so that
"the engine is reached" is observable in the result), or — where a claim
needs engine-side table semantics that live outside the repository — by a
state model written from the specification and marked as such.
-/

/-- Python exceptions raised by the wrapper layer.  `unexpectedResult` is the
source's `UnexpectedResult` class (its `message` is the first constructor
argument, or `None`); `assertionError` models a failed `assert`;
`pyException` models a bare `raise Exception(...)`. -/
inductive PyErr where
  | unexpectedResult (message : Option String)
  | assertionError (message : String)
  | pyException (message : String)
deriving DecidableEq

/-- Python runtime values, as far as the dispatch code inspects them: the
wrapper only ever distinguishes `str`, `int`, `bool` (a subtype of `int` in
Python) and "anything else" (floats, None, lists, ...). -/
inductive PyArg where
  | pystr (s : String)
  | pyint (n : Int)
  | pybool (b : Bool)
  | pyfloat
  | pynone
  | pylist
deriving DecidableEq

/-- Python's `isinstance(x, str)`. -/
def isinstance_str : PyArg → Bool
  | .pystr _ => true
  | _ => false

/-- Python's `isinstance(x, int)`.  In Python `bool` is a subtype of `int`,
so booleans satisfy this check. -/
def isinstance_int : PyArg → Bool
  | .pyint _ => true
  | .pybool _ => true
  | _ => false

/-- The string carried by a `str` argument (unreachable default otherwise). -/
def PyArg.asStr : PyArg → String
  | .pystr s => s
  | _ => ""

/-- The integer value of an `int`-instance argument: Python's `True` is the
integer `1` and `False` is the integer `0` (unreachable default otherwise). -/
def PyArg.asInt : PyArg → Int
  | .pyint n => n
  | .pybool b => if b then 1 else 0
  | _ => 0

/-- The engine lookup a dispatch method performs: `Item(name)` or
`Item(index)` on the engine-side collection.  A wrapper that returns an
`error` instead performed no engine lookup at all. -/
inductive Lookup where
  | byName (name : String)
  | byIndex (index : Int)
deriving DecidableEq

/-- `Rastr._pars` from the source: the list the per-character validation loop
of every calculation entry point checks membership against. -/
def _pars : List String := ["", "p", "z", "c", "r", "i"]

/-- `Rastr._calc_codes` read through `dict.get`: `{0: "AST_OK", 1: "AST_NB",
2: "AST_REPT"}.get(result)`, which is `none` for any other key. -/
def _calc_codes (result : Int) : Option String :=
  if result = 0 then some "AST_OK"
  else if result = 1 then some "AST_NB"
  else if result = 2 then some "AST_REPT"
  else none

/-- The first letter of the parameter string that is not a member of
`_pars`, if any — the letter at which the source's validation loop
`for letter in parameters: if letter not in self._pars: raise ...` raises. -/
def firstBadChar : List Char → Option Char
  | [] => none
  | c :: rest =>
      if String.mk [c] ∈ _pars then firstBadChar rest else some c

/-- The engine functions behind the seven calculation entry points
(`Astra.rgm`, `opf`, `opt`, `ekv`, `kdd`, `step_ut`, `ut_utr`): each takes
the parameter string and yields the engine's integer result. -/
structure AstraEngine where
  rgm : String → Int
  opf : String → Int
  opt : String → Int
  ekv : String → Int
  kdd : String → Int
  step_ut : String → Int
  ut_utr : String → Int

/-- Shared body of the seven calculation entry points, translated from the
source: validate every character of `parameters` against `_pars`, raising
`UnexpectedResult` at the first character outside it; otherwise call the
engine function and map its integer result through `_calc_codes`.  The
second component is the list of engine invocations performed, so that
"raised before the engine was invoked" is `[]` there. -/
def calcCall (engineFn : String → Int) (parameters : String) :
    Except PyErr (Option String) × List String :=
  match firstBadChar parameters.data with
  | some c =>
      (.error (.unexpectedResult (some
        ("Некорректный параметр расчета -> " ++ parameters ++ " -> " ++ String.mk [c]))), [])
  | none => (.ok (_calc_codes (engineFn parameters)), [parameters])

/-- `Rastr.rgm`. -/
def Rastr.rgm (astra : AstraEngine) (parameters : String) :
    Except PyErr (Option String) × List String :=
  calcCall astra.rgm parameters

/-- `Rastr.opf`. -/
def Rastr.opf (astra : AstraEngine) (parameters : String) :
    Except PyErr (Option String) × List String :=
  calcCall astra.opf parameters

/-- `Rastr.opt`. -/
def Rastr.opt (astra : AstraEngine) (parameters : String) :
    Except PyErr (Option String) × List String :=
  calcCall astra.opt parameters

/-- `Rastr.ekv`. -/
def Rastr.ekv (astra : AstraEngine) (parameters : String) :
    Except PyErr (Option String) × List String :=
  calcCall astra.ekv parameters

/-- `Rastr.kdd`. -/
def Rastr.kdd (astra : AstraEngine) (parameters : String) :
    Except PyErr (Option String) × List String :=
  calcCall astra.kdd parameters

/-- `Rastr.stepUt`. -/
def Rastr.stepUt (astra : AstraEngine) (parameters : String) :
    Except PyErr (Option String) × List String :=
  calcCall astra.step_ut parameters

/-- `Rastr.ut`. -/
def Rastr.ut (astra : AstraEngine) (parameters : String) :
    Except PyErr (Option String) × List String :=
  calcCall astra.ut_utr parameters

/-- A calculation call raised a validation error locally, before the engine
was invoked: the result is an exception and the engine-invocation trace is
empty. -/
def raisesLocally (r : Except PyErr (Option String) × List String) : Prop :=
  (∃ e, r.1 = Except.error e) ∧ r.2 = []

/-- Modelled from the spec: the engine-side table object, which lives in the
external COM component, not in this repository.  `size` is the engine's
`Size` (number of rows; row ids are dense in `[0, size)` per §3); `sel` is
the currently applied selection string; `matcher` is the engine's compiled
interpretation of a non-empty selection string as a row predicate (§4.3). -/
structure EngineTable where
  size : Nat
  matcher : String → Nat → Bool
  sel : String

/-- Modelled from the spec (§4.3 edge-case policy): a row matches selection
string `p` when `p` is empty (an empty predicate means "all rows") or the
engine's matcher accepts the row. -/
def rowMatches (t : EngineTable) (p : String) (r : Nat) : Bool :=
  if p = "" then true else t.matcher p r

/-- Modelled from the spec: the engine's `SetSel` applies a selection string
and reports the number of rows matching it (§4.3: applying a selection
returns the count of matching rows; the source's `clearSelection` returns
`SetSel("")` directly and documents that return as the total row count). -/
def EngineTable.SetSel (t : EngineTable) (p : String) : EngineTable × Nat :=
  ({ t with sel := p }, (List.range t.size).countP (fun r => rowMatches t p r))

/-- Modelled from the spec: the engine's `TestSel` tests membership of a row
in the current selection. -/
def EngineTable.TestSel (t : EngineTable) (r : Nat) : Bool :=
  rowMatches t t.sel r

/-- Modelled from the spec (§4.4): the engine's `AddRow` appends one row, so
the row count grows by one.  Selection state is untouched. -/
def EngineTable.AddRow (t : EngineTable) : EngineTable :=
  { t with size := t.size + 1 }

/-- Modelled from the spec (§4.4): the engine's `InsRow` inserts one empty
row before row `row_id`, so the row count grows by one. -/
def EngineTable.InsRow (t : EngineTable) (_row_id : Int) : EngineTable :=
  { t with size := t.size + 1 }

/-- Modelled from the spec (§4.4): the engine's `DupRow` clones row
`row_id`, so the row count grows by one. -/
def EngineTable.DupRow (t : EngineTable) (_row_id : Int) : EngineTable :=
  { t with size := t.size + 1 }

/-- `RastrTable.clearSelection`: `return self._table.SetSel("")` — the
wrapper returns whatever the engine's `SetSel` returns, together with the
updated engine table. -/
def RastrTable.clearSelection (t : EngineTable) : EngineTable × Nat :=
  t.SetSel ""

/-- `RastrTable.rowsCount` (alias `fullSize`): `return self._table.Size`. -/
def RastrTable.rowsCount (t : EngineTable) : Nat :=
  t.size

/-- `RastrTable.checkRowSelection`: `return bool(self._table.TestSel(row_id))`. -/
def RastrTable.checkRowSelection (t : EngineTable) (row_id : Nat) : Bool :=
  t.TestSel row_id

/-- `RastrTable.addRow`: `self._table.AddRow(); return self._table.Size - 1`. -/
def RastrTable.addRow (t : EngineTable) : EngineTable × Int :=
  let t2 := t.AddRow
  (t2, (t2.size : Int) - 1)

/-- `RastrTable.insertRow`: `self._table.InsRow(row_id); return row_id - 1`. -/
def RastrTable.insertRow (t : EngineTable) (row_id : Int) : EngineTable × Int :=
  (t.InsRow row_id, row_id - 1)

/-- `RastrTable.duplicateRow`: `self._table.DupRow(row_id); return row_id + 1`. -/
def RastrTable.duplicateRow (t : EngineTable) (row_id : Int) : EngineTable × Int :=
  (t.DupRow row_id, row_id + 1)

/-- `RastrTable.column`: dispatch on the runtime type of `item` —
`isinstance(item, str)` performs a name lookup, `isinstance(item, int)`
performs a positional lookup (`self.columns.getByName` / `getByIndex`, both
reaching the engine's `Cols.Item`), anything else raises `UnexpectedResult`
without any engine call. -/
def RastrTable.column (item : PyArg) : Except PyErr Lookup :=
  if isinstance_str item then Except.ok (.byName item.asStr)
  else if isinstance_int item then Except.ok (.byIndex item.asInt)
  else Except.error (.unexpectedResult (some "Некорректное наименование или индекс столбца"))

/-- `RastrTables.table`: same dispatch shape over the tables collection
(`getTableByName` / `getTableByIndex`, both reaching the engine's
`Tables.Item`). -/
def RastrTables.table (item : PyArg) : Except PyErr Lookup :=
  if isinstance_str item then Except.ok (.byName item.asStr)
  else if isinstance_int item then Except.ok (.byIndex item.asInt)
  else Except.error (.unexpectedResult (some "Некорректное наименование или индекс таблицы!"))

/-- `RastrTables.removeTable`: same dispatch shape (`removeByName` /
`removeByIndex`, both reaching the engine's `Tables.Remove`). -/
def RastrTables.removeTable (item : PyArg) : Except PyErr Lookup :=
  if isinstance_str item then Except.ok (.byName item.asStr)
  else if isinstance_int item then Except.ok (.byIndex item.asInt)
  else Except.error (.unexpectedResult (some "Некорректное наименование или индекс таблицы!"))

/-- `RastrColumn._property_types` from the source: the 13 recognized column
property kinds. -/
def _property_types : List String :=
  ["FL_NAME", "FL_TIP", "FL_WIDTH", "FL_PREC",
   "FL_ZAG", "FL_FORMULA", "FL_AFOR", "FL_XRM",
   "FL_NAMEREF", "FL_DESC", "FL_MIN", "FL_MAX", "FL_MASH"]

/-- `RastrColumn.getProperty`: `assert property_type in self._property_types`
then `return self._column.Prop(self._property_types.index(property_type))`.
The `ok` payload is the index passed to the engine's `Prop`; an `error`
means the assert raised before any engine call. -/
def RastrColumn.getProperty (property_type : String) : Except PyErr Nat :=
  if _property_types.contains property_type = false then
    Except.error (.assertionError "Некорректный тип свойства столбца!")
  else
    Except.ok (List.indexOf property_type _property_types)

/-- `RastrColumn.setProperty`: `assert property_type in self._property_types`
then `self._column.SetProp(self._property_types.index(property_type), value)`.
The `ok` payload is the `(index, value)` pair passed to the engine's
`SetProp`. -/
def RastrColumn.setProperty {α : Type} (property_type : String) (value : α) :
    Except PyErr (Nat × α) :=
  if _property_types.contains property_type = false then
    Except.error (.assertionError "Некорректный тип свойства столбца!")
  else
    Except.ok (List.indexOf property_type _property_types, value)

/-- `RastrColumn._value_types` from the source: the three value kinds. -/
def _value_types : List String := ["scaled", "not_scaled", "scaled_string"]

/-- The engine cell accessor a value call dispatches to: `SetZN`/`ZN` for
`"scaled"`, `SetZ`/`Z` for `"not_scaled"`, `SetZS`/`ZS` for
`"scaled_string"`. -/
inductive ValueAccessor where
  | zn
  | z
  | zs
deriving DecidableEq

/-- `RastrColumn.setValue`: `assert value_type in self._value_types` then a
`match` on `value_type` calling `SetZN`/`SetZ`/`SetZS`.  The `ok` payload
records which engine accessor was called with which arguments; `ok none` is
the (unreachable) fall-through of a Python `match` with no matching case,
which performs no engine call and returns `None`. -/
def RastrColumn.setValue {α : Type} (row_id : Int) (value : α) (value_type : String) :
    Except PyErr (Option (ValueAccessor × Int × α)) :=
  if _value_types.contains value_type = false then
    Except.error (.assertionError "Некорректный тип величины!")
  else if value_type = "scaled" then Except.ok (some (.zn, row_id, value))
  else if value_type = "not_scaled" then Except.ok (some (.z, row_id, value))
  else if value_type = "scaled_string" then Except.ok (some (.zs, row_id, value))
  else Except.ok none

/-- `RastrColumn.getValue`: `if value_type not in self._value_types: raise
Exception(...)` then a `match` on `value_type` calling `ZN`/`Z`/`ZS`.  The
`ok` payload records which engine accessor was called on which row; `ok
none` is the (unreachable) fall-through returning `None`. -/
def RastrColumn.getValue (row_id : Int) (value_type : String) :
    Except PyErr (Option (ValueAccessor × Int)) :=
  if _value_types.contains value_type = false then
    Except.error (.pyException "Некорректный тип величины!")
  else if value_type = "scaled" then Except.ok (some (.zn, row_id))
  else if value_type = "not_scaled" then Except.ok (some (.z, row_id))
  else if value_type = "scaled_string" then Except.ok (some (.zs, row_id))
  else Except.ok none

/-- The engine-side file operations behind the CSV/CDU read/write wrappers
(`WriteCSV`, `ReadCSV`, `WriteCDU`, `ReadCDU`).  Each receives exactly the
arguments the wrapper passes (the looked-up mode code — an `Option Nat`,
since Python's `dict.get` yields `None` on a miss — the file path, the
comma-joined parameter list and the remaining strings) and either succeeds
or raises an exception with a message. -/
structure FileEngine where
  WriteCSV : Option Nat → String → String → String → Except String Unit
  ReadCSV : Option Nat → String → String → String → String → Except String Unit
  WriteCDU : Option Nat → String → String → Except String Unit
  ReadCDU : Option Nat → String → String → String → Except String Unit

/-- `RastrTable._csv_codes` read through `dict.get`: `{"CSV_ADD": 0,
"CSV_REPL": 1, "CSV_KEY": 2, "CSV_KEYADD": 3, "CSV_REPLNAMES": 5}.get(code)`. -/
def _csv_codes (csv_code : String) : Option Nat :=
  if csv_code = "CSV_ADD" then some 0
  else if csv_code = "CSV_REPL" then some 1
  else if csv_code = "CSV_KEY" then some 2
  else if csv_code = "CSV_KEYADD" then some 3
  else if csv_code = "CSV_REPLNAMES" then some 5
  else none

/-- `RastrTable._cdu_codes` read through `dict.get`: `{"CDU_ADD": 0,
"CDU_REPL": 1, "CDU_KEY": 2, "CDU_KEYADD": 3}.get(code)`. -/
def _cdu_codes (cdu_code : String) : Option Nat :=
  if cdu_code = "CDU_ADD" then some 0
  else if cdu_code = "CDU_REPL" then some 1
  else if cdu_code = "CDU_KEY" then some 2
  else if cdu_code = "CDU_KEYADD" then some 3
  else none

/-- The `try: ... except Exception as err: raise UnexpectedResult(err)`
shape shared by all four file operations: an engine success passes through,
an engine exception is re-raised as `UnexpectedResult` whose message is the
original cause. -/
def wrapUnexpected (r : Except String Unit) : Except PyErr Unit :=
  match r with
  | .ok _ => .ok ()
  | .error err => .error (.unexpectedResult (some err))

/-- `RastrTable.writeToCSV`: inside the `try`, calls
`WriteCSV(self._csv_codes.get(csv_code), filepath, ",".join(parameters), sep)`. -/
def RastrTable.writeToCSV (eng : FileEngine) (filepath : String)
    (parameters : List String) (sep : String) (csv_code : String) :
    Except PyErr Unit :=
  wrapUnexpected (eng.WriteCSV (_csv_codes csv_code) filepath
    (String.intercalate "," parameters) sep)

/-- `RastrTable.readCSV`: inside the `try`, calls
`ReadCSV(self._csv_codes.get(csv_code), filepath, ",".join(parameters), sep,
default_parameters)`. -/
def RastrTable.readCSV (eng : FileEngine) (filepath : String)
    (parameters : List String) (sep : String) (csv_code : String)
    (default_parameters : String) : Except PyErr Unit :=
  wrapUnexpected (eng.ReadCSV (_csv_codes csv_code) filepath
    (String.intercalate "," parameters) sep default_parameters)

/-- `RastrTable.writeToCDU`: inside the `try`, calls
`WriteCDU(self._cdu_codes.get(cdu_code), filepath, ",".join(parameters))`. -/
def RastrTable.writeToCDU (eng : FileEngine) (filepath : String)
    (parameters : List String) (cdu_code : String) : Except PyErr Unit :=
  wrapUnexpected (eng.WriteCDU (_cdu_codes cdu_code) filepath
    (String.intercalate "," parameters))

/-- `RastrTable.readCDU`: inside the `try`, calls
`ReadCDU(self._cdu_codes.get(cdu_code), filepath, ",".join(parameters),
default_parameters)`. -/
def RastrTable.readCDU (eng : FileEngine) (filepath : String)
    (parameters : List String) (cdu_code : String)
    (default_parameters : String) : Except PyErr Unit :=
  wrapUnexpected (eng.ReadCDU (_cdu_codes cdu_code) filepath
    (String.intercalate "," parameters) default_parameters)

/-- A file-operation result that is either a success or a wrapped engine
error — i.e. not a locally raised fail-fast validation error. -/
def wrappedOrOk : Except PyErr Unit → Bool
  | .ok _ => true
  | .error (.unexpectedResult (some _)) => true
  | _ => false

/-- A concrete engine whose every calculation function returns the integer 3
(outside the keys of `_calc_codes`). -/
def engineThree : AstraEngine :=
  ⟨fun _ => 3, fun _ => 3, fun _ => 3, fun _ => 3, fun _ => 3, fun _ => 3, fun _ => 3⟩

/-- A concrete file engine whose every operation raises an exception with
message "boom". -/
def failingFileEngine : FileEngine :=
  ⟨fun _ _ _ _ => .error "boom", fun _ _ _ _ _ => .error "boom",
   fun _ _ _ => .error "boom", fun _ _ _ _ => .error "boom"⟩

/-- A concrete engine table with three rows, a matcher that accepts nothing,
and a non-empty current selection string. -/
def sampleTable : EngineTable :=
  ⟨3, fun _ _ => false, "sel.ny=1"⟩

/-- A singleton-character string is never the empty string, so the
validation loop's membership test against `_pars` is equivalent to
membership in the five-letter alphabet. -/
theorem singleton_mem_pars_iff (c : Char) :
    String.mk [c] ∈ _pars ↔ String.mk [c] ∈ (["p", "z", "c", "r", "i"] : List String) := by
  have hne : String.mk [c] ≠ "" := by
    intro h
    have h2 := congrArg String.data h
    simp at h2
  simp [_pars, hne]

/-- The validation loop finds no offending letter exactly when every letter
of the parameter string lies in the allowed alphabet. -/
theorem firstBadChar_eq_none_iff (l : List Char) :
    firstBadChar l = none
      ↔ ∀ c ∈ l, String.mk [c] ∈ (["p", "z", "c", "r", "i"] : List String) := by
  induction l with
  | nil => simp [firstBadChar]
  | cons c rest ih =>
      by_cases h : String.mk [c] ∈ _pars
      · have hc := (singleton_mem_pars_iff c).mp h
        constructor
        · intro hnone c2 hc2
          rcases List.mem_cons.mp hc2 with hceq | hmem
          · rw [hceq]
            exact hc
          · exact ih.mp (by simpa [firstBadChar, h] using hnone) c2 hmem
        · intro hall
          simp only [firstBadChar, if_pos h]
          exact ih.mpr fun c2 hc2 => hall c2 (List.mem_cons_of_mem _ hc2)
      · have hc : String.mk [c] ∉ (["p", "z", "c", "r", "i"] : List String) :=
          fun hmem => h ((singleton_mem_pars_iff c).mpr hmem)
        constructor
        · intro hnone
          simp [firstBadChar, h] at hnone
        · intro hall
          exact absurd (hall c (List.mem_cons_self c rest)) hc

/-- A calculation call raises locally (exception, no engine invocation)
exactly when the parameter string contains a letter outside the allowed
alphabet. -/
theorem calcCall_raisesLocally_iff (f : String → Int) (s : String) :
    raisesLocally (calcCall f s)
      ↔ ∃ c ∈ s.data, String.mk [c] ∉ (["p", "z", "c", "r", "i"] : List String) := by
  constructor
  · rintro ⟨⟨e, he⟩, -⟩
    by_contra hno
    push_neg at hno
    have h0 : firstBadChar s.data = none := (firstBadChar_eq_none_iff s.data).mpr hno
    unfold calcCall at he
    rw [h0] at he
    simp at he
  · rintro ⟨c, hc, hbad⟩
    have h0 : firstBadChar s.data ≠ none := by
      intro h
      exact hbad ((firstBadChar_eq_none_iff s.data).mp h c hc)
    unfold raisesLocally calcCall
    cases h : firstBadChar s.data with
    | none => exact absurd h h0
    | some c2 => exact ⟨⟨_, rfl⟩, rfl⟩

/-- C1: for every calculation entry point (rgm, opf, opt, ekv, kdd, stepUt,
ut) and every parameter string `s`, the call raises a validation error
locally — before the external engine is invoked — if and only if `s`
contains at least one character outside the alphabet \x7bp, z, c, r, i\x7d;
in particular `"pzc"` passes validation and `"px"` raises. -/
theorem C1_calc_param_validation (astra : AstraEngine) (s : String) :
    (raisesLocally (Rastr.rgm astra s)
      ↔ ∃ c ∈ s.data, String.mk [c] ∉ (["p", "z", "c", "r", "i"] : List String))
    ∧ (raisesLocally (Rastr.opf astra s)
      ↔ ∃ c ∈ s.data, String.mk [c] ∉ (["p", "z", "c", "r", "i"] : List String))
    ∧ (raisesLocally (Rastr.opt astra s)
      ↔ ∃ c ∈ s.data, String.mk [c] ∉ (["p", "z", "c", "r", "i"] : List String))
    ∧ (raisesLocally (Rastr.ekv astra s)
      ↔ ∃ c ∈ s.data, String.mk [c] ∉ (["p", "z", "c", "r", "i"] : List String))
    ∧ (raisesLocally (Rastr.kdd astra s)
      ↔ ∃ c ∈ s.data, String.mk [c] ∉ (["p", "z", "c", "r", "i"] : List String))
    ∧ (raisesLocally (Rastr.stepUt astra s)
      ↔ ∃ c ∈ s.data, String.mk [c] ∉ (["p", "z", "c", "r", "i"] : List String))
    ∧ (raisesLocally (Rastr.ut astra s)
      ↔ ∃ c ∈ s.data, String.mk [c] ∉ (["p", "z", "c", "r", "i"] : List String))
    ∧ ¬raisesLocally (Rastr.rgm astra "pzc")
    ∧ raisesLocally (Rastr.rgm astra "px") := by
  refine ⟨calcCall_raisesLocally_iff _ _, calcCall_raisesLocally_iff _ _,
    calcCall_raisesLocally_iff _ _, calcCall_raisesLocally_iff _ _,
    calcCall_raisesLocally_iff _ _, calcCall_raisesLocally_iff _ _,
    calcCall_raisesLocally_iff _ _, ?_, ?_⟩
  · intro hx
    exact absurd ((calcCall_raisesLocally_iff astra.rgm "pzc").mp hx) (by decide)
  · exact (calcCall_raisesLocally_iff astra.rgm "px").mpr (by decide)

/-- C2: `clearSelection()` leaves the table with every valid row selected
(the Unrestricted state) and returns the table's full row count. -/
theorem C2_clearSelection_unrestricted (t : EngineTable) (r : Nat)
    (_h : r < (RastrTable.clearSelection t).1.size) :
    RastrTable.checkRowSelection (RastrTable.clearSelection t).1 r = true
    ∧ (RastrTable.clearSelection t).2 = RastrTable.rowsCount t := by
  constructor
  · simp [RastrTable.clearSelection, RastrTable.checkRowSelection,
      EngineTable.SetSel, EngineTable.TestSel, rowMatches]
  · show ((List.range t.size).countP fun r => rowMatches t "" r) = t.size
    have hall : ∀ r ∈ List.range t.size, rowMatches t "" r := by
      intro r _
      simp [rowMatches]
    rw [List.countP_eq_length.mpr hall, List.length_range]

/-- Witness for C2 at a concrete three-row table with a nonempty prior
selection. -/
theorem C2_clearSelection_unrestricted_witness :
    RastrTable.checkRowSelection (RastrTable.clearSelection sampleTable).1 1 = true
    ∧ (RastrTable.clearSelection sampleTable).2 = RastrTable.rowsCount sampleTable :=
  C2_clearSelection_unrestricted sampleTable 1 (by decide)

/-- C3: `addRow()` appends a row and returns the new row's id, equal to the
new full size minus one; `insertRow(row_id)` inserts a row and returns
`row_id - 1`; `duplicateRow(row_id)` clones a row and returns `row_id + 1`. -/
theorem C3_row_edit_conventions (t : EngineTable) (row_id : Int) :
    (RastrTable.addRow t).2 = (RastrTable.rowsCount (RastrTable.addRow t).1 : Int) - 1
    ∧ RastrTable.rowsCount (RastrTable.addRow t).1 = RastrTable.rowsCount t + 1
    ∧ (RastrTable.insertRow t row_id).2 = row_id - 1
    ∧ RastrTable.rowsCount (RastrTable.insertRow t row_id).1 = RastrTable.rowsCount t + 1
    ∧ (RastrTable.duplicateRow t row_id).2 = row_id + 1
    ∧ RastrTable.rowsCount (RastrTable.duplicateRow t row_id).1 = RastrTable.rowsCount t + 1 :=
  ⟨rfl, rfl, rfl, rfl, rfl, rfl⟩

/-- C4: the name-or-index lookup methods (`RastrTable.column` and
`RastrTables.table`) dispatch on the runtime type of their argument: a
string performs a name lookup, an integer performs a positional lookup, and
an argument that is an instance of neither type raises `UnexpectedResult`
(the source's local invalid-argument error) without any engine lookup. -/
theorem C4_name_or_index_dispatch :
    (∀ s : String, RastrTable.column (.pystr s) = Except.ok (.byName s)
      ∧ RastrTables.table (.pystr s) = Except.ok (.byName s))
    ∧ (∀ n : Int, RastrTable.column (.pyint n) = Except.ok (.byIndex n)
      ∧ RastrTables.table (.pyint n) = Except.ok (.byIndex n))
    ∧ (∀ item : PyArg, isinstance_str item = false → isinstance_int item = false →
        RastrTable.column item
          = Except.error (.unexpectedResult (some "Некорректное наименование или индекс столбца"))
        ∧ RastrTables.table item
          = Except.error (.unexpectedResult (some "Некорректное наименование или индекс таблицы!"))) := by
  refine ⟨fun s => ⟨rfl, rfl⟩, fun n => ⟨rfl, rfl⟩, fun item h1 h2 => ?_⟩
  constructor <;> simp [RastrTable.column, RastrTables.table, h1, h2]

/-- Witness for C4 at the concrete non-string, non-integer argument `None`. -/
theorem C4_name_or_index_dispatch_witness :
    RastrTable.column PyArg.pynone
      = Except.error (.unexpectedResult (some "Некорректное наименование или индекс столбца"))
    ∧ RastrTables.table PyArg.pynone
      = Except.error (.unexpectedResult (some "Некорректное наименование или индекс таблицы!")) :=
  C4_name_or_index_dispatch.2.2 PyArg.pynone rfl rfl

/-- C5: `getProperty` and `setProperty` reach the external engine (an `ok`
result carrying the engine-call arguments) exactly when the property kind is
one of the 13 recognized kinds; any unrecognized kind fails with the local
assertion error, on both get and set. -/
theorem C5_property_kind_validation (k : String) (v : Int) :
    ((∃ i, RastrColumn.getProperty k = Except.ok i) ↔ k ∈ _property_types)
    ∧ ((∃ p, RastrColumn.setProperty k v = Except.ok p) ↔ k ∈ _property_types)
    ∧ (RastrColumn.getProperty k
        = Except.error (.assertionError "Некорректный тип свойства столбца!")
      ↔ k ∉ _property_types)
    ∧ (RastrColumn.setProperty k v
        = Except.error (.assertionError "Некорректный тип свойства столбца!")
      ↔ k ∉ _property_types)
    ∧ _property_types.length = 13 := by
  have h13 : _property_types.length = 13 := rfl
  by_cases h : k ∈ _property_types <;>
    simp [RastrColumn.getProperty, RastrColumn.setProperty, h, h13]

/-- C6: `getValue(row_id, kind)` and `setValue(row_id, value, kind)` cover
exactly the three value kinds, dispatching to the corresponding engine
accessor (`ZN`/`SetZN` for scaled, `Z`/`SetZ` for not_scaled, `ZS`/`SetZS`
for scaled_string); any other kind raises the local error before any engine
accessor is reached, and the match never falls through silently. -/
theorem C6_value_kind_dispatch (row_id : Int) (v : Int) (k : String) :
    RastrColumn.setValue row_id v "scaled" = Except.ok (some (.zn, row_id, v))
    ∧ RastrColumn.setValue row_id v "not_scaled" = Except.ok (some (.z, row_id, v))
    ∧ RastrColumn.setValue row_id v "scaled_string" = Except.ok (some (.zs, row_id, v))
    ∧ RastrColumn.getValue row_id "scaled" = Except.ok (some (.zn, row_id))
    ∧ RastrColumn.getValue row_id "not_scaled" = Except.ok (some (.z, row_id))
    ∧ RastrColumn.getValue row_id "scaled_string" = Except.ok (some (.zs, row_id))
    ∧ ((∃ e, RastrColumn.setValue row_id v k = Except.error e) ↔ k ∉ _value_types)
    ∧ ((∃ e, RastrColumn.getValue row_id k = Except.error e) ↔ k ∉ _value_types)
    ∧ RastrColumn.setValue row_id v k ≠ Except.ok none
    ∧ RastrColumn.getValue row_id k ≠ Except.ok none := by
  refine ⟨rfl, rfl, rfl, rfl, rfl, rfl, ?_, ?_, ?_, ?_⟩
  · by_cases h : k ∈ _value_types
    · have h3 : k = "scaled" ∨ k = "not_scaled" ∨ k = "scaled_string" := by
        simpa [_value_types] using h
      rcases h3 with rfl | rfl | rfl <;> simp [RastrColumn.setValue, h]
    · simp [RastrColumn.setValue, h]
  · by_cases h : k ∈ _value_types
    · have h3 : k = "scaled" ∨ k = "not_scaled" ∨ k = "scaled_string" := by
        simpa [_value_types] using h
      rcases h3 with rfl | rfl | rfl <;> simp [RastrColumn.getValue, h]
    · simp [RastrColumn.getValue, h]
  · by_cases h : k ∈ _value_types
    · have h3 : k = "scaled" ∨ k = "not_scaled" ∨ k = "scaled_string" := by
        simpa [_value_types] using h
      rcases h3 with rfl | rfl | rfl <;> simp [RastrColumn.setValue, h]
    · simp [RastrColumn.setValue, h]
  · by_cases h : k ∈ _value_types
    · have h3 : k = "scaled" ∨ k = "not_scaled" ∨ k = "scaled_string" := by
        simpa [_value_types] using h
      rcases h3 with rfl | rfl | rfl <;> simp [RastrColumn.getValue, h]
    · simp [RastrColumn.getValue, h]

/-- C7 counterexample: with an engine returning the integer 3, `rgm("")`
passes validation but yields `None` (here `ok none`), which is none of the
three outcome codes — refuting "returns one of exactly three outcome codes
regardless of the integer the external engine returns". -/
theorem C7_calc_outcome_counterexample :
    (Rastr.rgm engineThree "").1 = Except.ok none
    ∧ (Rastr.rgm engineThree "").1 ≠ Except.ok (some "AST_OK")
    ∧ (Rastr.rgm engineThree "").1 ≠ Except.ok (some "AST_NB")
    ∧ (Rastr.rgm engineThree "").1 ≠ Except.ok (some "AST_REPT") := by
  refine ⟨rfl, ?_, ?_, ?_⟩ <;> simp [Rastr.rgm, calcCall, firstBadChar, engineThree, _calc_codes]

/-- C7 (amended): for every parameter string that passes validation, each
calculation entry point returns `ok` of the engine integer mapped through
`_calc_codes`: `AST_OK` when the engine returns 0, `AST_NB` when it returns
1, `AST_REPT` when it returns 2, and no code (`None`) for any other engine
integer. -/
theorem C7_calc_outcome_amended (astra : AstraEngine) (s : String)
    (h : firstBadChar s.data = none) :
    (Rastr.rgm astra s).1 = Except.ok (_calc_codes (astra.rgm s))
    ∧ (Rastr.opf astra s).1 = Except.ok (_calc_codes (astra.opf s))
    ∧ (Rastr.opt astra s).1 = Except.ok (_calc_codes (astra.opt s))
    ∧ (Rastr.ekv astra s).1 = Except.ok (_calc_codes (astra.ekv s))
    ∧ (Rastr.kdd astra s).1 = Except.ok (_calc_codes (astra.kdd s))
    ∧ (Rastr.stepUt astra s).1 = Except.ok (_calc_codes (astra.step_ut s))
    ∧ (Rastr.ut astra s).1 = Except.ok (_calc_codes (astra.ut_utr s))
    ∧ (_calc_codes (astra.rgm s) = some "AST_OK" ↔ astra.rgm s = 0)
    ∧ (_calc_codes (astra.rgm s) = some "AST_NB" ↔ astra.rgm s = 1)
    ∧ (_calc_codes (astra.rgm s) = some "AST_REPT" ↔ astra.rgm s = 2)
    ∧ (_calc_codes (astra.rgm s) = none
      ↔ astra.rgm s ≠ 0 ∧ astra.rgm s ≠ 1 ∧ astra.rgm s ≠ 2) := by
  refine ⟨?_, ?_, ?_, ?_, ?_, ?_, ?_, ?_, ?_, ?_, ?_⟩
  · simp [Rastr.rgm, calcCall, h]
  · simp [Rastr.opf, calcCall, h]
  · simp [Rastr.opt, calcCall, h]
  · simp [Rastr.ekv, calcCall, h]
  · simp [Rastr.kdd, calcCall, h]
  · simp [Rastr.stepUt, calcCall, h]
  · simp [Rastr.ut, calcCall, h]
  · unfold _calc_codes
    split_ifs with h0 h1 h2 <;> simp_all
  · unfold _calc_codes
    split_ifs with h0 h1 h2 <;> simp_all
  · unfold _calc_codes
    split_ifs with h0 h1 h2 <;> simp_all
  · unfold _calc_codes
    split_ifs with h0 h1 h2 <;> simp_all

/-- Witness for the amended C7 at the valid parameter string `"pzc"` and an
engine returning 3: the call returns `ok` of `_calc_codes 3`, i.e. no code. -/
theorem C7_calc_outcome_amended_witness :
    firstBadChar "pzc".data = none
    ∧ (Rastr.rgm engineThree "pzc").1 = Except.ok (_calc_codes (engineThree.rgm "pzc")) :=
  ⟨by decide, (C7_calc_outcome_amended engineThree "pzc" (by decide)).1⟩

/-- C8: every CSV and CDU read/write call surfaces an engine exception as a
single wrapped `UnexpectedResult` carrying the original cause message, and
passes an engine success through — never silently swallowing a failure. -/
theorem C8_file_error_wrapping (eng : FileEngine) (fp : String) (ps : List String)
    (sep csv_code cdu_code dflt e : String) :
    (eng.WriteCSV (_csv_codes csv_code) fp (String.intercalate "," ps) sep = Except.error e →
      RastrTable.writeToCSV eng fp ps sep csv_code
        = Except.error (.unexpectedResult (some e)))
    ∧ (eng.WriteCSV (_csv_codes csv_code) fp (String.intercalate "," ps) sep = Except.ok () →
      RastrTable.writeToCSV eng fp ps sep csv_code = Except.ok ())
    ∧ (eng.ReadCSV (_csv_codes csv_code) fp (String.intercalate "," ps) sep dflt = Except.error e →
      RastrTable.readCSV eng fp ps sep csv_code dflt
        = Except.error (.unexpectedResult (some e)))
    ∧ (eng.ReadCSV (_csv_codes csv_code) fp (String.intercalate "," ps) sep dflt = Except.ok () →
      RastrTable.readCSV eng fp ps sep csv_code dflt = Except.ok ())
    ∧ (eng.WriteCDU (_cdu_codes cdu_code) fp (String.intercalate "," ps) = Except.error e →
      RastrTable.writeToCDU eng fp ps cdu_code
        = Except.error (.unexpectedResult (some e)))
    ∧ (eng.WriteCDU (_cdu_codes cdu_code) fp (String.intercalate "," ps) = Except.ok () →
      RastrTable.writeToCDU eng fp ps cdu_code = Except.ok ())
    ∧ (eng.ReadCDU (_cdu_codes cdu_code) fp (String.intercalate "," ps) dflt = Except.error e →
      RastrTable.readCDU eng fp ps cdu_code dflt
        = Except.error (.unexpectedResult (some e)))
    ∧ (eng.ReadCDU (_cdu_codes cdu_code) fp (String.intercalate "," ps) dflt = Except.ok () →
      RastrTable.readCDU eng fp ps cdu_code dflt = Except.ok ()) := by
  refine ⟨?_, ?_, ?_, ?_, ?_, ?_, ?_, ?_⟩ <;>
    · intro hx
      simp [RastrTable.writeToCSV, RastrTable.readCSV, RastrTable.writeToCDU,
        RastrTable.readCDU, wrapUnexpected, hx]

/-- Witness for C8: a concrete engine whose file operations all raise
"boom"; `writeToCSV` surfaces it as `UnexpectedResult` carrying "boom". -/
theorem C8_file_error_wrapping_witness :
    failingFileEngine.WriteCSV (_csv_codes "CSV_REPL") "t.csv"
      (String.intercalate "," ["ny", "name"]) ";" = Except.error "boom"
    ∧ RastrTable.writeToCSV failingFileEngine "t.csv" ["ny", "name"] ";" "CSV_REPL"
      = Except.error (.unexpectedResult (some "boom")) :=
  ⟨rfl, (C8_file_error_wrapping failingFileEngine "t.csv" ["ny", "name"]
    ";" "CSV_REPL" "CDU_REPL" "" "boom").1 rfl⟩

/-- C9: a boolean argument is an instance of `int` in Python, so the
name-or-index dispatch methods send it down the integer branch as index 1
(`True`) or 0 (`False`) and never raise the invalid-argument error. -/
theorem C9_bool_dispatch (b : Bool) :
    isinstance_int (PyArg.pybool b) = true
    ∧ RastrTable.column (.pybool b) = Except.ok (.byIndex (if b then 1 else 0))
    ∧ RastrTables.table (.pybool b) = Except.ok (.byIndex (if b then 1 else 0))
    ∧ RastrTables.removeTable (.pybool b) = Except.ok (.byIndex (if b then 1 else 0)) := by
  cases b <;> exact ⟨rfl, rfl, rfl, rfl⟩

/-- The try/except wrapper only ever produces a success or a wrapped engine
error, never a locally raised fail-fast validation error. -/
theorem wrappedOrOk_wrapUnexpected (r : Except String Unit) :
    wrappedOrOk (wrapUnexpected r) = true := by
  cases r with
  | ok u => rfl
  | error e => rfl

/-- C10: an unrecognized CSV/CDU mode code raises no local validation error:
`dict.get` maps it to `None`, which is passed to the engine inside the `try`
block, so the call's outcome is whatever the engine call with mode `None`
yields — a success or a wrapped `UnexpectedResult`, never a fail-fast local
error. -/
theorem C10_unrecognized_mode_reaches_engine (eng : FileEngine) (fp : String)
    (ps : List String) (sep dflt code : String)
    (hcsv : code ∉ (["CSV_ADD", "CSV_REPL", "CSV_KEY", "CSV_KEYADD", "CSV_REPLNAMES"] : List String))
    (hcdu : code ∉ (["CDU_ADD", "CDU_REPL", "CDU_KEY", "CDU_KEYADD"] : List String)) :
    _csv_codes code = none
    ∧ _cdu_codes code = none
    ∧ RastrTable.writeToCSV eng fp ps sep code
      = wrapUnexpected (eng.WriteCSV none fp (String.intercalate "," ps) sep)
    ∧ RastrTable.readCSV eng fp ps sep code dflt
      = wrapUnexpected (eng.ReadCSV none fp (String.intercalate "," ps) sep dflt)
    ∧ RastrTable.writeToCDU eng fp ps code
      = wrapUnexpected (eng.WriteCDU none fp (String.intercalate "," ps))
    ∧ RastrTable.readCDU eng fp ps code dflt
      = wrapUnexpected (eng.ReadCDU none fp (String.intercalate "," ps) dflt)
    ∧ wrappedOrOk (RastrTable.writeToCSV eng fp ps sep code) = true
    ∧ wrappedOrOk (RastrTable.readCSV eng fp ps sep code dflt) = true
    ∧ wrappedOrOk (RastrTable.writeToCDU eng fp ps code) = true
    ∧ wrappedOrOk (RastrTable.readCDU eng fp ps code dflt) = true := by
  simp only [List.mem_cons, List.not_mem_nil, or_false, not_or] at hcsv hcdu
  obtain ⟨h1, h2, h3, h4, h5⟩ := hcsv
  obtain ⟨h6, h7, h8, h9⟩ := hcdu
  have hc1 : _csv_codes code = none := by
    unfold _csv_codes
    simp [h1, h2, h3, h4, h5]
  have hc2 : _cdu_codes code = none := by
    unfold _cdu_codes
    simp [h6, h7, h8, h9]
  refine ⟨hc1, hc2, ?_, ?_, ?_, ?_,
    wrappedOrOk_wrapUnexpected _, wrappedOrOk_wrapUnexpected _,
    wrappedOrOk_wrapUnexpected _, wrappedOrOk_wrapUnexpected _⟩ <;>
    simp [RastrTable.writeToCSV, RastrTable.readCSV, RastrTable.writeToCDU,
      RastrTable.readCDU, hc1, hc2]

/-- Witness for C10 at the concrete unrecognized mode string "CSV_BOGUS"
with the always-failing engine: the mode maps to `None` and the outcome is
still only the wrapped engine error. -/
theorem C10_unrecognized_mode_reaches_engine_witness :
    _csv_codes "CSV_BOGUS" = none
    ∧ wrappedOrOk (RastrTable.writeToCSV failingFileEngine "t.csv" ["ny"] ";" "CSV_BOGUS") = true :=
  ⟨(C10_unrecognized_mode_reaches_engine failingFileEngine "t.csv" ["ny"] ";" ""
      "CSV_BOGUS" (by decide) (by decide)).1,
   (C10_unrecognized_mode_reaches_engine failingFileEngine "t.csv" ["ny"] ";" ""
      "CSV_BOGUS" (by decide) (by decide)).2.2.2.2.2.2.1⟩
